import Mathlib

/-!
Shallow embedding of the orchestration shell in `main.go` of the can-bridge
service.  The components it drives (config parser, interface setup manager,
interface manager, watchdog, monitor) live outside this file's source, so each
component call is modelled by its outcome, supplied in an environment record:
`none` / `Except.ok` stands for a nil Go error, `some e` / `Except.error e`
for a non-nil one.  Each modelled function returns, besides its Go result, the
ordered trace of component calls it performed (an `Event` list) and the list
of warning lines it logged, so that ordering and fault-tolerance claims can be
stated about the code's control flow.  Informational log lines (the emoji
status prints) are not modelled; warning lines logged on a swallowed error are.
-/

namespace CanBridge

/-- Service configuration, from `Config` in main.go: the ordered list of CAN
port names (`CanPorts`) and the HTTP listen port (`Port`). -/
structure Config where
  canPorts : List String
  port : String
deriving Repr, DecidableEq

/-- Observed state of one interface as returned by
`InterfaceSetupManager.GetInterfaceState` (fields used by main.go's logging). -/
structure InterfaceState where
  bitrate : Nat
  state : String
  isUp : Bool
deriving Repr, DecidableEq

/-- One observable component call performed by the orchestration shell, in
program order. -/
inductive Event where
  | parseConfigCall
  | validateConfigCall
  | validateSetupConfigCall
  | getAvailableCall
  | setupAttempt (name : String)
  | getStateQuery (name : String)
  | initializeAllCall
  | setupHTTPServerCall
  | watchdogStopCall
  | httpShutdownCall
  | cleanupCall
  | teardownAttempt (name : String)
  | getSystemStatusCall
  | getSetupConfigCall
deriving Repr, DecidableEq

/-- Outcomes of the component calls `Service.Initialize` can make.  `none`
models a nil Go error, `some e` an error with message `e`. -/
structure Env where
  parseConfig : Except String Config
  validateConfig : Config → Option String
  validateSetupConfig : Option String
  getAvailableInterfaces : Except String (List String)
  setupInterfaceWithRetry : String → Option String
  initializeAll : Option String

/-- Boolean test for an `Except` error value. -/
def isErr : Except String α → Bool
  | Except.error _ => true
  | Except.ok _ => false

/-- Boolean test for a setup-attempt event. -/
def isSetupAttempt : Event → Bool
  | Event.setupAttempt _ => true
  | _ => false

/-- The `for _, ifName := range s.config.CanPorts` loop body of
`Service.setupCanInterfaces` (main.go lines 133-150): one
`SetupInterfaceWithRetry` attempt per configured name, in order; on failure
the error is appended to `setupErrors`, on success `successCount` is bumped
and `GetInterfaceState` is queried for logging.  Returns the call trace, the
accumulated `setupErrors`, and `successCount`. -/
def setupLoop (env : Env) : List String → List Event × List String × Nat
  | [] => ([], [], 0)
  | ifName :: rest =>
    match env.setupInterfaceWithRetry ifName with
    | some e =>
      let r := setupLoop env rest
      (Event.setupAttempt ifName :: r.1, (ifName ++ ": " ++ e) :: r.2.1, r.2.2)
    | none =>
      let r := setupLoop env rest
      (Event.setupAttempt ifName :: Event.getStateQuery ifName :: r.1, r.2.1, r.2.2 + 1)

/-- `Service.setupCanInterfaces` (main.go lines 119-163): lists available
interfaces (warning on failure, then proceeds), runs the setup loop, and
returns an error when `successCount == 0` (nothing set up) or when some
setups failed (partial failure); nil otherwise.  Result components: call
trace, warning log lines, Go error. -/
def setupCanInterfaces (env : Env) (cfg : Config) :
    List Event × List String × Except String Unit :=
  let availWarn :=
    match env.getAvailableInterfaces with
    | Except.error e => ["Warning: could not list available interfaces: " ++ e]
    | Except.ok _ => []
  let r := setupLoop env cfg.canPorts
  let evs := Event.getAvailableCall :: r.1
  if r.2.2 = 0 then
    (evs, availWarn,
      Except.error ("failed to setup any CAN interfaces: " ++ String.intercalate " " r.2.1))
  else if r.2.1 = [] then
    (evs, availWarn, Except.ok ())
  else
    (evs, availWarn,
      Except.error ("partial setup failure: " ++ String.intercalate " " r.2.1))

/-- `Service.initializeComponents` (main.go lines 83-116): constructs the
components; the only fallible step is `ValidateSetupConfig`, whose failure is
returned wrapped (line 92-94). -/
def initializeComponents (env : Env) : List Event × Except String Unit :=
  match env.validateSetupConfig with
  | some e =>
    ([Event.validateSetupConfigCall],
      Except.error ("setup configuration validation failed: " ++ e))
  | none => ([Event.validateSetupConfigCall], Except.ok ())

/-- `Service.Initialize` (main.go lines 38-80): parse config, validate it,
initialize components (each failure returned immediately), then setup CAN
interfaces and `InitializeAll` — the errors of these last two are only logged
as warnings ("We continue even if some interfaces failed") — and finally set
up the HTTP server and return nil.  Result components: call trace, warning
log lines, Go error. -/
def Initialize (env : Env) : List Event × List String × Except String Unit :=
  match env.parseConfig with
  | Except.error e =>
    ([Event.parseConfigCall], [],
      Except.error ("failed to parse configuration: " ++ e))
  | Except.ok cfg =>
    match env.validateConfig cfg with
    | some e =>
      ([Event.parseConfigCall, Event.validateConfigCall], [],
        Except.error ("configuration validation failed: " ++ e))
    | none =>
      let comp := initializeComponents env
      let pre := Event.parseConfigCall :: Event.validateConfigCall :: comp.1
      match comp.2 with
      | Except.error e =>
        (pre, [], Except.error ("failed to initialize components: " ++ e))
      | Except.ok _ =>
        let setup := setupCanInterfaces env cfg
        let w1 :=
          match setup.2.2 with
          | Except.error msg => ["Warning: CAN interface setup issues: " ++ msg]
          | Except.ok _ => []
        let w2 :=
          match env.initializeAll with
          | some msg => ["Warning: " ++ msg]
          | none => []
        (pre ++ setup.1 ++ [Event.initializeAllCall, Event.setupHTTPServerCall],
          setup.2.1 ++ w1 ++ w2, Except.ok ())

/-- Outcomes of the component calls `Service.Stop` can make.  The `Present`
flags model the nil checks on `s.server`, `s.interfaceManager` and
`s.setupManager`. -/
structure StopEnv where
  watchdogStop : Option String
  serverPresent : Bool
  serverShutdown : Option String
  interfaceManagerPresent : Bool
  setupManagerPresent : Bool
  teardownInterface : String → Option String

/-- `Service.teardownCanInterfaces` (main.go lines 245-255): one
`TeardownInterface` call per configured name, in order; a failure is logged
as a warning and the loop continues.  Returns the call trace and the warning
lines. -/
def teardownCanInterfaces (env : StopEnv) : List String → List Event × List String
  | [] => ([], [])
  | n :: rest =>
    let r := teardownCanInterfaces env rest
    match env.teardownInterface n with
    | some e =>
      (Event.teardownAttempt n :: r.1,
        ("Warning: failed to teardown " ++ n ++ ": " ++ e) :: r.2)
    | none => (Event.teardownAttempt n :: r.1, r.2)

/-- `Service.Stop` (main.go lines 215-242): stop the watchdog (warning on
error), shut down the HTTP server if present (warning on error), run
`InterfaceManager.Cleanup` if present, tear down the CAN interfaces if the
setup manager is present; always returns nil.  Result components: call trace,
warning log lines, Go error. -/
def Stop (env : StopEnv) (canPorts : List String) :
    List Event × List String × Except String Unit :=
  let w1 :=
    match env.watchdogStop with
    | some e => ["Warning: failed to stop watchdog: " ++ e]
    | none => []
  let httpEvs := if env.serverPresent then [Event.httpShutdownCall] else []
  let w2 :=
    if env.serverPresent then
      match env.serverShutdown with
      | some e => ["Warning: HTTP server shutdown error: " ++ e]
      | none => []
    else []
  let cleanupEvs := if env.interfaceManagerPresent then [Event.cleanupCall] else []
  let td := if env.setupManagerPresent then teardownCanInterfaces env canPorts else ([], [])
  (Event.watchdogStopCall :: (httpEvs ++ cleanupEvs ++ td.1), w1 ++ w2 ++ td.2, Except.ok ())

/-- The `SystemStatus` fields main.go's `GetStatus` reads from
`Monitor.GetSystemStatus` (uptime rendered as a string). -/
structure SystemStatus where
  systemUptime : String
  activeInterfaces : List String
  watchdogRunning : Bool
deriving Repr, DecidableEq

/-- Values of Go's `map[string]interface---` result as built by `GetStatus`
(string, bool, string list, an interface state, or a nested map as an ordered
field list). -/
inductive JValue where
  | str (s : String)
  | boolVal (b : Bool)
  | strList (l : List String)
  | ifState (st : InterfaceState)
  | obj (fields : List (String × JValue))

/-- Outcomes of the component calls `Service.GetStatus` can make.  The
`Present` flags model the nil checks on `s.monitor` and `s.setupManager`;
`canPorts` is `s.config.CanPorts`. -/
structure StatusEnv where
  monitorPresent : Bool
  getSystemStatus : SystemStatus
  setupManagerPresent : Bool
  getSetupConfig : String
  getInterfaceState : String → Except String InterfaceState
  canPorts : List String

/-- The `interfaceStates` map built by `GetStatus` (main.go lines 273-282):
per configured name, the queried state on success, or a one-field map holding
the error message on failure. -/
def interfaceStatesEntries (env : StatusEnv) : List (String × JValue) :=
  env.canPorts.map (fun n =>
    match env.getInterfaceState n with
    | Except.ok st => (n, JValue.ifState st)
    | Except.error e => (n, JValue.obj [("error", JValue.str e)]))

/-- `Service.GetStatus` (main.go lines 258-293): with a nil monitor, returns
the one-entry map status=not_initialized; otherwise composes the running
status map from the monitor snapshot and, when the setup manager is present,
its config and per-interface states.  Result components: call trace, result
map. -/
def GetStatus (env : StatusEnv) : List Event × JValue :=
  if env.monitorPresent = false then
    ([], JValue.obj [("status", JValue.str "not_initialized")])
  else
    let setupEvs :=
      if env.setupManagerPresent then
        Event.getSetupConfigCall :: env.canPorts.map Event.getStateQuery
      else []
    let setupStatus :=
      if env.setupManagerPresent then
        [("config", JValue.str env.getSetupConfig),
          ("interfaceStates", JValue.obj (interfaceStatesEntries env))]
      else []
    (Event.getSystemStatusCall :: setupEvs,
      JValue.obj [("status", JValue.str "running"),
        ("uptime", JValue.str env.getSystemStatus.systemUptime),
        ("activeInterfaces", JValue.strList env.getSystemStatus.activeInterfaces),
        ("watchdogRunning", JValue.boolVal env.getSystemStatus.watchdogRunning),
        ("setup", JValue.obj setupStatus)])

/-- Configuration used by the concrete counterexample runs: one CAN port. -/
def cfgAllFail : Config := ⟨["can0"], "8080"⟩

/-- Concrete environment in which every `SetupInterfaceWithRetry` call fails
and every other component call succeeds. -/
def envAllFail : Env :=
  ⟨Except.ok cfgAllFail, fun _ => none, none, Except.ok [],
    fun _ => some "bring-up failed", none⟩

/-- Configuration with two CAN ports, for the partial-success runs. -/
def cfgTwo : Config := ⟨["can0", "can1"], "8080"⟩

/-- Concrete environment in which `SetupInterfaceWithRetry` fails for "can0"
but succeeds for "can1" (at least one interface succeeds), and every other
component call succeeds. -/
def envPartial : Env :=
  ⟨Except.ok cfgTwo, fun _ => none, none, Except.ok [],
    fun n => if n = "can0" then some "bring-up failed" else none, none⟩

/-- Concrete environment in which `ValidateSetupConfig` fails. -/
def envBadSetupCfg : Env :=
  ⟨Except.ok cfgAllFail, fun _ => none, some "bitrate out of range", Except.ok [],
    fun _ => none, none⟩

/-- Concrete environment in which `InitializeAll` returns an aggregate error
and everything else succeeds. -/
def envIaFail : Env :=
  ⟨Except.ok cfgAllFail, fun _ => none, none, Except.ok [],
    fun _ => none, some "failed to open handle for can0"⟩

/-- Concrete environment in which `GetAvailableInterfaces` fails and setups
succeed. -/
def envQueryFail : Env :=
  ⟨Except.ok cfgAllFail, fun _ => none, none, Except.error "netlink unavailable",
    fun _ => none, none⟩

/-- Concrete stop environment in which every stop step succeeds. -/
def stopEnvOk : StopEnv := ⟨none, true, none, true, true, fun _ => none⟩

/-- Concrete stop environment in which every fallible stop step fails. -/
def stopEnvFail : StopEnv :=
  ⟨some "watchdog stuck", true, some "connections open", true, true,
    fun _ => some "link busy"⟩

/-- Concrete status environment with a nil monitor. -/
def statusEnvNoMonitor : StatusEnv :=
  ⟨false, ⟨"0s", [], false⟩, false, "cfg", fun _ => Except.error "no state", []⟩

/-- Concrete status environment with all components present and one failing
state query. -/
def statusEnvUp : StatusEnv :=
  ⟨true, ⟨"5m", ["can0"], true⟩, true, "cfg",
    fun n => if n = "can1" then Except.error "query timeout"
      else Except.ok ⟨500000, "UP", true⟩,
    ["can0", "can1"]⟩

lemma setupLoop_filter (env : Env) (ports : List String) :
    (setupLoop env ports).1.filter isSetupAttempt = ports.map Event.setupAttempt := by
  induction ports with
  | nil => simp [setupLoop]
  | cons n rest ih =>
    cases h : env.setupInterfaceWithRetry n with
    | some e => simp [setupLoop, h, isSetupAttempt, ih]
    | none => simp [setupLoop, h, isSetupAttempt, ih]

lemma setupLoop_count_zero (env : Env) (ports : List String)
    (h : ∀ n ∈ ports, env.setupInterfaceWithRetry n ≠ none) :
    (setupLoop env ports).2.2 = 0 := by
  induction ports with
  | nil => simp [setupLoop]
  | cons n rest ih =>
    cases hn : env.setupInterfaceWithRetry n with
    | none => exact absurd hn (h n (List.mem_cons_self n rest))
    | some e =>
      simpa [setupLoop, hn] using ih (fun m hm => h m (List.mem_cons_of_mem n hm))

lemma setupLoop_congr (env env2 : Env)
    (h : env.setupInterfaceWithRetry = env2.setupInterfaceWithRetry)
    (ports : List String) : setupLoop env ports = setupLoop env2 ports := by
  induction ports with
  | nil => rfl
  | cons n rest ih => simp only [setupLoop, h, ih]

lemma teardownCanInterfaces_events (env : StopEnv) (ports : List String) :
    (teardownCanInterfaces env ports).1 = ports.map Event.teardownAttempt := by
  induction ports with
  | nil => rfl
  | cons n rest ih =>
    cases h : env.teardownInterface n with
    | some e => simp [teardownCanInterfaces, h, ih]
    | none => simp [teardownCanInterfaces, h, ih]

/-- Claim C6: the startup setup loop attempts `SetupInterfaceWithRetry`
exactly once for every configured interface name, sequentially in the
configured order, and a failure for one name never prevents the attempts for
the following names: the setup attempts in the trace of
`setupCanInterfaces` are exactly the configured list, in order, for every
outcome environment. -/
theorem setup_attempts_exactly_configured (env : Env) (cfg : Config) :
    (setupCanInterfaces env cfg).1.filter isSetupAttempt =
      cfg.canPorts.map Event.setupAttempt := by
  have h := setupLoop_filter env cfg.canPorts
  cases hz : (setupLoop env cfg.canPorts).2.2 with
  | zero => simp [setupCanInterfaces, hz, isSetupAttempt, h]
  | succ k =>
    by_cases he : (setupLoop env cfg.canPorts).2.1 = [] <;>
      simp [setupCanInterfaces, hz, he, isSetupAttempt, h]

/-- Claim C4: the teardown loop attempts `TeardownInterface` on every
configured name, in order, for every outcome environment — an error returned
for one interface never stops or skips the teardown of the remaining ones. -/
theorem teardown_attempts_every_interface (env : StopEnv) (ports : List String) :
    (teardownCanInterfaces env ports).1 = ports.map Event.teardownAttempt :=
  teardownCanInterfaces_events env ports

/-- Claim C1, counterexample: in a run where `SetupInterfaceWithRetry` fails
for the single configured interface (so zero interfaces are usable, and
`setupCanInterfaces` does report an error), `Service.Initialize` still
returns nil — it does not fail as the claim states. -/
theorem initialize_ok_when_all_setups_fail :
    cfgAllFail.canPorts = ["can0"]
    ∧ envAllFail.setupInterfaceWithRetry "can0" = some "bring-up failed"
    ∧ isErr (setupCanInterfaces envAllFail cfgAllFail).2.2 = true
    ∧ (Initialize envAllFail).2.2 = Except.ok () := by
  refine ⟨rfl, rfl, rfl, rfl⟩

/-- Claim C1, amended: if `SetupInterfaceWithRetry` fails for every configured
interface name, `setupCanInterfaces` returns a non-nil error, but
`Service.Initialize` only logs it as a warning and still returns nil, setting
up the HTTP server; when at least one interface succeeds Initialize likewise
returns nil.  The second and third conjuncts hold for every assignment of
setup outcomes, so they cover both the all-fail and the partial-success
case. -/
theorem total_setup_failure_nonfatal (env : Env) (cfg : Config)
    (hp : env.parseConfig = Except.ok cfg)
    (hv : env.validateConfig cfg = none)
    (hvs : env.validateSetupConfig = none) :
    ((∀ n ∈ cfg.canPorts, env.setupInterfaceWithRetry n ≠ none) →
      isErr (setupCanInterfaces env cfg).2.2 = true)
    ∧ (Initialize env).2.2 = Except.ok ()
    ∧ Event.setupHTTPServerCall ∈ (Initialize env).1 := by
  refine ⟨?_, ?_, ?_⟩
  · intro hall
    have hz := setupLoop_count_zero env cfg.canPorts hall
    simp [setupCanInterfaces, hz, isErr]
  · simp [Initialize, hp, hv, hvs, initializeComponents]
  · simp [Initialize, hp, hv, hvs, initializeComponents]

/-- Claim C1, amended, witness at concrete inputs: an all-fail run (setup
error reported, Initialize still nil) and a partial-success run where "can1"
succeeds (Initialize nil). -/
theorem total_setup_failure_nonfatal_witness :
    isErr (setupCanInterfaces envAllFail cfgAllFail).2.2 = true
    ∧ (Initialize envAllFail).2.2 = Except.ok ()
    ∧ Event.setupHTTPServerCall ∈ (Initialize envAllFail).1
    ∧ envPartial.setupInterfaceWithRetry "can1" = none
    ∧ (Initialize envPartial).2.2 = Except.ok ()
    ∧ Event.setupHTTPServerCall ∈ (Initialize envPartial).1 := by
  have h1 := total_setup_failure_nonfatal envAllFail cfgAllFail rfl rfl rfl
  have h2 := total_setup_failure_nonfatal envPartial cfgTwo rfl rfl rfl
  exact ⟨h1.1 (by intro n hn; simp [envAllFail]), h1.2.1, h1.2.2,
    by simp [envPartial], h2.2.1, h2.2.2⟩

/-- Claim C2: `Service.Stop` performs the shutdown steps in order — stop the
watchdog, then shut down the HTTP server, then `InterfaceManager.Cleanup`,
then tear down the OS-level interfaces — whenever the server, interface
manager and setup manager are present (as they are after `Initialize`),
for every outcome environment. -/
theorem stop_shutdown_order (env : StopEnv) (ports : List String)
    (hs : env.serverPresent = true)
    (him : env.interfaceManagerPresent = true)
    (hsm : env.setupManagerPresent = true) :
    (Stop env ports).1 =
      Event.watchdogStopCall :: Event.httpShutdownCall :: Event.cleanupCall ::
        ports.map Event.teardownAttempt := by
  simp [Stop, hs, him, hsm, teardownCanInterfaces_events]

/-- Claim C2, witness at a concrete input. -/
theorem stop_shutdown_order_witness :
    (Stop stopEnvOk ["can0", "can1"]).1 =
      Event.watchdogStopCall :: Event.httpShutdownCall :: Event.cleanupCall ::
        (["can0", "can1"].map Event.teardownAttempt) :=
  stop_shutdown_order stopEnvOk ["can0", "can1"] rfl rfl rfl

/-- Claim C3: in every execution of `Service.Stop` (the outcome environment
ranges over arbitrary failures of any step), every shutdown step still runs:
the watchdog stop, the HTTP shutdown, the handle cleanup, and the teardown of
every configured interface all appear in the trace. -/
theorem stop_steps_fault_tolerant (env : StopEnv) (ports : List String)
    (hs : env.serverPresent = true)
    (him : env.interfaceManagerPresent = true)
    (hsm : env.setupManagerPresent = true) :
    Event.watchdogStopCall ∈ (Stop env ports).1
    ∧ Event.httpShutdownCall ∈ (Stop env ports).1
    ∧ Event.cleanupCall ∈ (Stop env ports).1
    ∧ ∀ n ∈ ports, Event.teardownAttempt n ∈ (Stop env ports).1 := by
  rw [stop_shutdown_order env ports hs him hsm]
  refine ⟨by simp, by simp, by simp, ?_⟩
  intro n hn
  simp only [List.mem_cons]
  exact Or.inr (Or.inr (Or.inr (List.mem_map_of_mem Event.teardownAttempt hn)))

/-- Claim C3, witness: every fallible stop step fails, yet every step runs. -/
theorem stop_steps_fault_tolerant_witness :
    Event.watchdogStopCall ∈ (Stop stopEnvFail ["can0"]).1
    ∧ Event.httpShutdownCall ∈ (Stop stopEnvFail ["can0"]).1
    ∧ Event.cleanupCall ∈ (Stop stopEnvFail ["can0"]).1
    ∧ Event.teardownAttempt "can0" ∈ (Stop stopEnvFail ["can0"]).1 := by
  have h := stop_steps_fault_tolerant stopEnvFail ["can0"] rfl rfl rfl
  exact ⟨h.1, h.2.1, h.2.2.1, h.2.2.2 "can0" (by simp)⟩

/-- Claim C5: if `ValidateSetupConfig` fails, `Initialize` returns a non-nil
error, no `SetupInterfaceWithRetry` attempt and no `InitializeAll` call
occurs; moreover in every run of `Initialize` no such interface operation
precedes the `ValidateSetupConfig` call in the trace. -/
theorem validate_setup_config_gates (env : Env) (e : String)
    (hvs : env.validateSetupConfig = some e) :
    isErr (Initialize env).2.2 = true
    ∧ (∀ n, Event.setupAttempt n ∉ (Initialize env).1)
    ∧ Event.initializeAllCall ∉ (Initialize env).1
    ∧ ∀ env2 : Env, ∀ n,
        Event.setupAttempt n ∉
          (Initialize env2).1.takeWhile (fun ev => ev != Event.validateSetupConfigCall)
        ∧ Event.initializeAllCall ∉
          (Initialize env2).1.takeWhile (fun ev => ev != Event.validateSetupConfigCall) := by
  refine ⟨?_, ?_, ?_, ?_⟩
  · cases hp : env.parseConfig with
    | error pe => simp [Initialize, hp, isErr]
    | ok cfg =>
      cases hv : env.validateConfig cfg with
      | some ve => simp [Initialize, hp, hv, isErr]
      | none => simp [Initialize, initializeComponents, hp, hv, hvs, isErr]
  · cases hp : env.parseConfig with
    | error pe => simp [Initialize, hp]
    | ok cfg =>
      cases hv : env.validateConfig cfg with
      | some ve => simp [Initialize, hp, hv]
      | none => simp [Initialize, initializeComponents, hp, hv, hvs]
  · cases hp : env.parseConfig with
    | error pe => simp [Initialize, hp]
    | ok cfg =>
      cases hv : env.validateConfig cfg with
      | some ve => simp [Initialize, hp, hv]
      | none => simp [Initialize, initializeComponents, hp, hv, hvs]
  · intro env2 n
    have h1 : (Event.parseConfigCall != Event.validateSetupConfigCall) = true := by decide
    have h2 : (Event.validateConfigCall != Event.validateSetupConfigCall) = true := by decide
    have h3 : (Event.validateSetupConfigCall != Event.validateSetupConfigCall) = false := by
      decide
    cases hp : env2.parseConfig with
    | error pe => simp [Initialize, hp, List.takeWhile, h1]
    | ok cfg =>
      cases hv : env2.validateConfig cfg with
      | some ve => simp [Initialize, hp, hv, List.takeWhile, h1, h2]
      | none =>
        cases hvs2 : env2.validateSetupConfig with
        | some e2 =>
          simp [Initialize, initializeComponents, hp, hv, hvs2, List.takeWhile, h1, h2, h3]
        | none =>
          simp [Initialize, initializeComponents, hp, hv, hvs2, List.takeWhile, h1, h2, h3]

/-- Claim C5, witness at a concrete input. -/
theorem validate_setup_config_gates_witness :
    isErr (Initialize envBadSetupCfg).2.2 = true
    ∧ Event.setupAttempt "can0" ∉ (Initialize envBadSetupCfg).1
    ∧ Event.initializeAllCall ∉ (Initialize envBadSetupCfg).1 := by
  have h := validate_setup_config_gates envBadSetupCfg "bitrate out of range" rfl
  exact ⟨h.1, h.2.1 "can0", h.2.2.1⟩

/-- Claim C7: a non-nil aggregate error from `InterfaceManager.InitializeAll`
does not fail `Service.Initialize`: the error is logged as a warning, the
HTTP server is still set up, and Initialize returns nil. -/
theorem initializeAll_error_nonfatal (env : Env) (cfg : Config) (e : String)
    (hp : env.parseConfig = Except.ok cfg)
    (hv : env.validateConfig cfg = none)
    (hvs : env.validateSetupConfig = none)
    (hia : env.initializeAll = some e) :
    (Initialize env).2.2 = Except.ok ()
    ∧ Event.setupHTTPServerCall ∈ (Initialize env).1
    ∧ ("Warning: " ++ e) ∈ (Initialize env).2.1 := by
  refine ⟨?_, ?_, ?_⟩ <;>
    simp [Initialize, hp, hv, hvs, hia, initializeComponents]

/-- Claim C7, witness at a concrete input. -/
theorem initializeAll_error_nonfatal_witness :
    (Initialize envIaFail).2.2 = Except.ok ()
    ∧ Event.setupHTTPServerCall ∈ (Initialize envIaFail).1
    ∧ ("Warning: " ++ "failed to open handle for can0") ∈ (Initialize envIaFail).2.1 :=
  initializeAll_error_nonfatal envIaFail cfgAllFail "failed to open handle for can0"
    rfl rfl rfl rfl

/-- Claim C8: a failure of `GetAvailableInterfaces` is non-fatal to startup
setup: `setupCanInterfaces` logs it as a warning, its Go result is the same
as with a successful listing, and the bring-up of every configured interface
is still attempted, in order. -/
theorem available_query_error_nonfatal (env : Env) (cfg : Config) (e : String)
    (hq : env.getAvailableInterfaces = Except.error e) :
    (setupCanInterfaces env cfg).2.2 =
      (setupCanInterfaces { env with getAvailableInterfaces := Except.ok [] } cfg).2.2
    ∧ (setupCanInterfaces env cfg).1.filter isSetupAttempt =
        cfg.canPorts.map Event.setupAttempt
    ∧ ("Warning: could not list available interfaces: " ++ e) ∈
        (setupCanInterfaces env cfg).2.1 := by
  have hr : setupLoop { env with getAvailableInterfaces := Except.ok [] } cfg.canPorts
      = setupLoop env cfg.canPorts :=
    setupLoop_congr { env with getAvailableInterfaces := Except.ok [] } env rfl cfg.canPorts
  have hfilter := setupLoop_filter env cfg.canPorts
  refine ⟨?_, ?_, ?_⟩
  · cases hz : (setupLoop env cfg.canPorts).2.2 with
    | zero => simp [setupCanInterfaces, hr, hz]
    | succ k =>
      by_cases he : (setupLoop env cfg.canPorts).2.1 = [] <;>
        simp [setupCanInterfaces, hr, hz, he]
  · cases hz : (setupLoop env cfg.canPorts).2.2 with
    | zero => simp [setupCanInterfaces, hz, isSetupAttempt, hfilter]
    | succ k =>
      by_cases he : (setupLoop env cfg.canPorts).2.1 = [] <;>
        simp [setupCanInterfaces, hz, he, isSetupAttempt, hfilter]
  · cases hz : (setupLoop env cfg.canPorts).2.2 with
    | zero => simp [setupCanInterfaces, hq, hz]
    | succ k =>
      by_cases he : (setupLoop env cfg.canPorts).2.1 = [] <;>
        simp [setupCanInterfaces, hq, hz, he]

/-- Claim C8, witness at a concrete input. -/
theorem available_query_error_nonfatal_witness :
    (setupCanInterfaces envQueryFail cfgAllFail).2.2 =
      (setupCanInterfaces { envQueryFail with getAvailableInterfaces := Except.ok [] }
        cfgAllFail).2.2
    ∧ (setupCanInterfaces envQueryFail cfgAllFail).1.filter isSetupAttempt =
        cfgAllFail.canPorts.map Event.setupAttempt
    ∧ ("Warning: could not list available interfaces: " ++ "netlink unavailable") ∈
        (setupCanInterfaces envQueryFail cfgAllFail).2.1 :=
  available_query_error_nonfatal envQueryFail cfgAllFail "netlink unavailable" rfl

/-- Claim C10: with a nil monitor, `Service.GetStatus` returns exactly the
one-entry map status=not_initialized and makes no component call; in every
case it returns a map (never an error), and a per-interface state-query error
is embedded in the interfaceStates entries as an error map rather than
propagated. -/
theorem getStatus_spec (env : StatusEnv) :
    (env.monitorPresent = false →
      GetStatus env = ([], JValue.obj [("status", JValue.str "not_initialized")]))
    ∧ (∃ fields, (GetStatus env).2 = JValue.obj fields)
    ∧ ∀ n e, n ∈ env.canPorts → env.getInterfaceState n = Except.error e →
        (n, JValue.obj [("error", JValue.str e)]) ∈ interfaceStatesEntries env := by
  refine ⟨?_, ?_, ?_⟩
  · intro h; simp [GetStatus, h]
  · cases h : env.monitorPresent with
    | false =>
      refine ⟨[("status", JValue.str "not_initialized")], ?_⟩
      simp [GetStatus, h]
    | true =>
      refine ⟨[("status", JValue.str "running"),
        ("uptime", JValue.str env.getSystemStatus.systemUptime),
        ("activeInterfaces", JValue.strList env.getSystemStatus.activeInterfaces),
        ("watchdogRunning", JValue.boolVal env.getSystemStatus.watchdogRunning),
        ("setup", JValue.obj (if env.setupManagerPresent then
          [("config", JValue.str env.getSetupConfig),
            ("interfaceStates", JValue.obj (interfaceStatesEntries env))]
          else []))], ?_⟩
      simp [GetStatus, h]
  · intro n e hmem herr
    simp only [interfaceStatesEntries, List.mem_map]
    exact ⟨n, hmem, by rw [herr]⟩

/-- Claim C10, witness at concrete inputs: the nil-monitor result, and the
embedding of a failing state query for "can1" in the running case. -/
theorem getStatus_spec_witness :
    GetStatus statusEnvNoMonitor =
      ([], JValue.obj [("status", JValue.str "not_initialized")])
    ∧ ("can1", JValue.obj [("error", JValue.str "query timeout")]) ∈
        interfaceStatesEntries statusEnvUp := by
  refine ⟨(getStatus_spec statusEnvNoMonitor).1 rfl, ?_⟩
  exact (getStatus_spec statusEnvUp).2.2 "can1" "query timeout" (by simp [statusEnvUp])
    (by simp [statusEnvUp])

end CanBridge
